import Mathlib

/-!
Shallow embedding of the `apico` HTTP client (files `src/core.ts`,
`src/utils.ts`, `src/types.ts`).

Modelling conventions:
* JavaScript strings are Lean `String`s; the character-level operations
  (`endsWith('/')`, `startsWith('/')`, `slice(0,-1)`) are expressed through
  the underlying character list `String.data`.
* `undefined` is `Option.none`; JavaScript `null` is the explicit value
  `JsData.null`.  Object spread over optional fields is modelled with `<|>`
  (a field explicitly set to `undefined` is identified with an absent field).
* JavaScript runtime values that can appear as a request body are modelled by
  the inductive `JsData`; opaque objects carry a numeric tag so that distinct
  objects stay distinguishable.
* The external fetch transport is abstracted by a `TransportOutcome`
  argument to `request`: either a resolved `TransportResponse` or a rejected
  thrown value.  Per the WHATWG fetch specification, aborting with a reason
  makes the transport reject with exactly that reason, so a fired timeout is
  the outcome `.rejected (timeoutAbortReason t)` with `timeoutAbortReason`
  taken verbatim from `createTimeoutController` in `src/utils.ts`.
* Wall-clock performance metrics (`performance.now()` timing) are outside the
  embedding; the `performance` field of a response is omitted.
-/

namespace Apico

/-- Character-list membership of `needle` as a prefix of `hay`
(helper for modelling JavaScript `String.prototype.includes`). -/
def isPrefixL : List Char → List Char → Bool
  | [], _ => true
  | _ :: _, [] => false
  | a :: as, b :: bs => a == b && isPrefixL as bs

/-- Substring occurrence on character lists
(model of JavaScript `String.prototype.includes`). -/
def containsSubL (needle : List Char) : List Char → Bool
  | [] => isPrefixL needle []
  | c :: rest => isPrefixL needle (c :: rest) || containsSubL needle rest

/-- JavaScript `hay.includes(needle)` for strings. -/
def substrB (needle hay : String) : Bool :=
  containsSubL needle.data hay.data

/-- JavaScript runtime values relevant to the client: the shapes
distinguished by `getContentTypeHeader` / `prepareRequestBody`
(`src/utils.ts`).  Opaque values carry a tag to keep them distinguishable. -/
inductive JsData where
  | null
  | str (s : String)
  | num (n : Int)
  | boolean (b : Bool)
  | obj (tag : Nat)
  | formData (tag : Nat)
  | urlParams (tag : Nat)
  | blob (tag : Nat)
  | arrayBuffer (tag : Nat)
  | stream (tag : Nat)
  deriving DecidableEq, Repr

/-- Lookup in a header record (`Record<string, string>`), first match wins. -/
def headersGet : List (String × String) → String → Option String
  | [], _ => none
  | p :: rest, k => if p.1 == k then some p.2 else headersGet rest k

/-- `mergeHeaders` from `src/utils.ts`: shallow object spread
`{...defaultHeaders, ...requestHeaders}`, request-specific entries override
defaults by exact key.  Modelled so that lookups agree with the spread
(an overridden default key keeps the request-specific value; JavaScript
objects cannot hold duplicate keys, so entry positions are immaterial). -/
def mergeHeaders (defaultHeaders requestHeaders : List (String × String)) :
    List (String × String) :=
  match defaultHeaders with
  | [] => requestHeaders
  | p :: d' =>
    if headersGet requestHeaders p.1 == none then p :: mergeHeaders d' requestHeaders
    else mergeHeaders d' requestHeaders

/-- JavaScript property assignment `h[k] = v` on a header record. -/
def setHeader (h : List (String × String)) (k v : String) :
    List (String × String) :=
  match headersGet h k with
  | none => h ++ [(k, v)]
  | some _ => h.map (fun p => if p.1 == k then (p.1, v) else p)

/-- Truth of `!headers?.[k]` in `src/core.ts`: the header record is absent,
the key is absent, or the value is the (falsy) empty string. -/
def headerFalsy (h : Option (List (String × String))) (k : String) : Bool :=
  match h with
  | none => true
  | some hs =>
    match headersGet hs k with
    | none => true
    | some v => v == ""

/-- `RequestConfig` from `src/types.ts` (passthrough transport options that
no claim mentions are omitted). -/
structure RequestConfigE where
  baseURL : Option String
  url : Option String
  params : Option (List (String × Option String))
  headers : Option (List (String × String))
  timeout : Option Int
  data : Option JsData
  method : Option String
  responseType : Option String
  deriving DecidableEq, Repr

/-- The all-absent request configuration `{}`. -/
def emptyConfig : RequestConfigE :=
  { baseURL := none, url := none, params := none, headers := none,
    timeout := none, data := none, method := none, responseType := none }

/-- `buildRequestConfig` from `src/utils.ts`:
`{...defaults, ...config, headers: mergeHeaders(defaults.headers, config.headers)}`. -/
def buildRequestConfig (config defaults : RequestConfigE) : RequestConfigE :=
  { baseURL := config.baseURL <|> defaults.baseURL
    url := config.url <|> defaults.url
    params := config.params <|> defaults.params
    headers := some (mergeHeaders (defaults.headers.getD [])
      (config.headers.getD []))
    timeout := config.timeout <|> defaults.timeout
    data := config.data <|> defaults.data
    method := config.method <|> defaults.method
    responseType := config.responseType <|> defaults.responseType }

/-- The `k=v` serialization of the defined entries of a parameter mapping, in
mapping order (the per-entry output of `URLSearchParams.append`;
percent-encoding of keys and values is abstracted, keys and values stand for
their encoded forms). -/
def definedPairs (params : List (String × Option String)) : List String :=
  params.filterMap (fun p => p.2.map (fun v => p.1 ++ "=" ++ v))

/-- `&`-join, the model of `URLSearchParams.prototype.toString`. -/
def joinAmp : List String → String
  | [] => ""
  | [x] => x
  | x :: y :: ys => x ++ "&" ++ joinAmp (y :: ys)

/-- Query string built by `buildURL`'s `URLSearchParams` accumulation. -/
def buildQueryString (params : List (String × Option String)) : String :=
  joinAmp (definedPairs params)

/-- JavaScript `url.includes('?')`: the character occurs in the string. -/
def containsChar (s : String) (c : Char) : Bool :=
  s.data.contains c

/-- `buildURL` from `src/utils.ts`. -/
def buildURL (url : String) (params : Option (List (String × Option String))) :
    String :=
  match params with
  | none => url
  | some ps =>
    if ps.isEmpty then url
    else
      let queryString := buildQueryString ps
      if queryString == "" then url
      else if containsChar url '?' then url ++ "&" ++ queryString
      else url ++ "?" ++ queryString

/-- `str.endsWith('/') ? str.slice(0, -1) : str` from `combineURLs`. -/
def stripTrailingSlash (s : String) : String :=
  if s.data.getLast? = some '/' then ⟨s.data.dropLast⟩ else s

/-- `str.startsWith('/') ? str : '/' + str` from `combineURLs`. -/
def addLeadingSlash (s : String) : String :=
  if s.data.head? = some '/' then s else "/" ++ s

/-- `combineURLs` from `src/utils.ts` (`relativeURL ? ... : baseURL`, the
empty string being falsy). -/
def combineURLs (baseURL relativeURL : String) : String :=
  if relativeURL ≠ "" then
    stripTrailingSlash baseURL ++ addLeadingSlash relativeURL
  else baseURL

/-- Specification-side helper (not in the source): the relative URL with one
leading slash removed, used to state what the join point looks like. -/
def stripLeadingSlash (s : String) : String :=
  if s.data.head? = some '/' then ⟨s.data.tail⟩ else s

/-- `getContentTypeHeader` from `src/utils.ts`.  The branches follow the
source order: null, multipart/form-encoded, binary, `typeof === 'object'`
(which also covers byte streams), then the primitive fallback. -/
def getContentTypeHeader : JsData → Option String
  | .null => none
  | .formData _ => none
  | .urlParams _ => none
  | .blob _ => some "application/octet-stream"
  | .arrayBuffer _ => some "application/octet-stream"
  | .obj _ => some "application/json"
  | .stream _ => some "application/json"
  | .str _ => some "text/plain"
  | .num _ => some "text/plain"
  | .boolean _ => some "text/plain"

/-- A value passed to the transport as request body: either a
transport-native value passed through unchanged or the `JSON.stringify`
serialization of the value. -/
inductive BodyInitV where
  | native (d : JsData)
  | jsonString (d : JsData)
  deriving DecidableEq, Repr

/-- `prepareRequestBody` from `src/utils.ts` (`none` is the `null` body). -/
def prepareRequestBody : JsData → Option BodyInitV
  | .null => none
  | .str s => some (.native (.str s))
  | .blob t => some (.native (.blob t))
  | .arrayBuffer t => some (.native (.arrayBuffer t))
  | .formData t => some (.native (.formData t))
  | .urlParams t => some (.native (.urlParams t))
  | .stream t => some (.native (.stream t))
  | d => some (.jsonString d)

deriving instance DecidableEq for Except

/-- The transport's resolved value (the fetch `Response` as the client
consumes it): `ok`, `status`, `statusText`, the `content-type` header, and
the body-decoding operations, each of which either yields a value or throws
(the identity of a decode exception is discarded by the source, hence
`Except Unit`). -/
structure TransportResponse where
  ok : Bool
  status : Nat
  statusText : String
  contentType : Option String
  jsonBody : Except Unit JsData
  textBody : Except Unit String
  blobBody : Except Unit JsData
  bufBody : Except Unit JsData
  formBody : Except Unit JsData
  deriving DecidableEq, Repr

/-- `ApicoResponse` from `src/types.ts` (the header collection is reachable
through `originalResponse`; the wall-clock `performance` record is outside
the embedding). -/
structure ApicoResponseE where
  data : JsData
  status : Nat
  statusText : String
  config : RequestConfigE
  originalResponse : TransportResponse
  deriving DecidableEq, Repr

/-- An arbitrary JavaScript thrown value as the `catch` block in
`src/core.ts` inspects it: its constructor name, optional `message`,
whether it is a `DOMException`, and the `ApicoError` fields (the
`isApicoError` discriminator, `config`, `response`, `status`). -/
structure JsThrown where
  name : String
  message : Option String
  isDOMException : Bool
  isApicoError : Bool
  config : Option RequestConfigE
  response : Option ApicoResponseE
  status : Option Nat
  deriving DecidableEq, Repr

/-- `createApicoError` from `src/core.ts`.  `error.status = status ||
response?.status`: a missing or zero (falsy) `status` argument falls back to
the status of the attached response, if any. -/
def createApicoError (message : String) (config : RequestConfigE)
    (response : Option ApicoResponseE) (status : Option Nat) : JsThrown :=
  { name := "Error"
    message := some message
    isDOMException := false
    isApicoError := true
    config := some config
    response := response
    status :=
      match status with
      | some s => if s = 0 then response.map (fun r => r.status) else some s
      | none => response.map (fun r => r.status) }

/-- The reason `createTimeoutController` passes to `controller.abort` when the
timer fires: `new Error("Request timeout of <t>ms exceeded")`
(`src/utils.ts`).  It is a plain `Error`, not a `DOMException`. -/
def timeoutAbortReason (t : Int) : JsThrown :=
  { name := "Error"
    message := some ("Request timeout of " ++ toString t ++ "ms exceeded")
    isDOMException := false
    isApicoError := false
    config := none
    response := none
    status := none }

/-- `createTimeoutController` from `src/utils.ts`, reduced to its observable
content: the abort reason that is scheduled, if any (`!timeout || timeout <= 0`
schedules nothing). -/
def createTimeoutController (timeout : Option Int) : Option JsThrown :=
  match timeout with
  | none => none
  | some t => if t ≤ 0 then none else some (timeoutAbortReason t)

/-- `config.responseType || "json"` (`src/core.ts`, `createApicoResponse`). -/
def effectiveResponseType (rc : RequestConfigE) : String :=
  match rc.responseType with
  | some s => if s = "" then "json" else s
  | none => "json"

/-- `response.headers.get("content-type")?.includes(sub)` with optional
chaining: a missing header is falsy. -/
def ctIncludes (r : TransportResponse) (sub : String) : Bool :=
  match r.contentType with
  | none => false
  | some ct => substrB sub ct

/-- The decode chain of `createApicoResponse` (`src/core.ts`), before the
enclosing `catch` that replaces a failure by `null`.  The final branch is the
default path: attempt JSON and fall back to text on failure. -/
def decodeAttempt (responseType : String) (r : TransportResponse) :
    Except Unit JsData :=
  if responseType == "json" && ctIncludes r "application/json" then r.jsonBody
  else if responseType == "text" || ctIncludes r "text/" then
    r.textBody.map JsData.str
  else if responseType == "blob" then r.blobBody
  else if responseType == "arrayBuffer" then r.bufBody
  else if responseType == "formData" then r.formBody
  else
    match r.jsonBody with
    | .ok d => .ok d
    | .error _ => r.textBody.map JsData.str

/-- `createApicoResponse` from `src/core.ts`: decode the body (a decode
failure becomes `null` data), attach status, status text, the effective
config and the raw transport response. -/
def createApicoResponse (r : TransportResponse) (rc : RequestConfigE) :
    ApicoResponseE :=
  { data :=
      match decodeAttempt (effectiveResponseType rc) r with
      | .ok d => d
      | .error _ => JsData.null
    status := r.status
    statusText := r.statusText
    config := rc
    originalResponse := r }

/-- What the single transport call did: resolved with a response, or rejected
with a thrown value (network failure, or the abort reason when the timeout
fired mid-flight). -/
inductive TransportOutcome where
  | resolved (r : TransportResponse)
  | rejected (e : JsThrown)
  deriving DecidableEq, Repr

/-- Sequential interceptor execution in registration order, stopping at the
first interceptor that throws (`for (const interceptor of list) x = await
interceptor(x)`). -/
def runICs {α : Type} (fs : List (α → Except JsThrown α)) (a : α) :
    Except JsThrown α :=
  match fs with
  | [] => .ok a
  | f :: rest =>
    match f a with
    | .ok a' => runICs rest a'
    | .error e => .error e

/-- JavaScript `toUpperCase` on ASCII method names, modelled character by
character. -/
def jsToUpper (s : String) : String :=
  ⟨s.data.map Char.toUpper⟩

/-- `(requestConfig.method || "GET").toUpperCase()` (`src/core.ts`). -/
def methodUpper (m : Option String) : String :=
  jsToUpper (match m with
    | some s => if s = "" then "GET" else s
    | none => "GET")

/-- `["POST", "PUT", "PATCH"].includes(method)`. -/
def isBodyMethod (m : String) : Bool :=
  m == "POST" || m == "PUT" || m == "PATCH"

/-- Body/header finalization inside `request` (`src/core.ts` lines 157-179):
for POST/PUT/PATCH with `data !== undefined`, serialize the body and, when
both `Content-Type` and `content-type` are falsy in the current headers,
attach the inferred content-type (mutating the request config's headers).
Returns the body passed to the transport and the updated config. -/
def finalizeBodyHeaders (rc : RequestConfigE) :
    Option BodyInitV × RequestConfigE :=
  match rc.data with
  | none => (none, rc)
  | some d =>
    if isBodyMethod (methodUpper rc.method) then
      let body := prepareRequestBody d
      if headerFalsy rc.headers "Content-Type" &&
          headerFalsy rc.headers "content-type" then
        match getContentTypeHeader d with
        | some ct =>
          (body, { rc with
            headers := some (setHeader (rc.headers.getD []) "Content-Type" ct) })
        | none => (body, rc)
      else (body, rc)
    else (none, rc)

/-- `(err as Error).message || "Network Error"`: a missing or empty (falsy)
message defaults to `"Network Error"`. -/
def jsMessageOrDefault (e : JsThrown) : String :=
  match e.message with
  | some m => if m = "" then "Network Error" else m
  | none => "Network Error"

/-- The `catch` block of `request` (`src/core.ts` lines 228-265): a
`DOMException` named `AbortError` becomes the `"Request aborted"` error and
runs the error interceptors; a value already carrying `isApicoError` is
rethrown unchanged; anything else is wrapped via its message (default
`"Network Error"`) and runs the error interceptors.  An error interceptor
that itself throws here propagates its thrown value out of `request` raw. -/
def catchBlock (rc : RequestConfigE) (err : JsThrown)
    (errICs : List (JsThrown → Except JsThrown JsThrown)) :
    Except JsThrown ApicoResponseE :=
  if err.isDOMException && err.name == "AbortError" then
    match runICs errICs (createApicoError "Request aborted" rc none none) with
    | .ok e1 => .error e1
    | .error e2 => .error e2
  else if err.isApicoError then .error err
  else
    match runICs errICs (createApicoError (jsMessageOrDefault err) rc none none) with
    | .ok e1 => .error e1
    | .error e2 => .error e2

/-- The `try` block of `request` from the transport call onward
(`src/core.ts` lines 182-227): a transport rejection rethrows its value; a
resolved response is normalized, passed through the response interceptors
(which may throw), then `!response.ok` builds the HTTP-status error from the
post-interceptor response, runs the error interceptors and throws; `ok`
returns the post-interceptor response.  Every `.error` of this function is a
value thrown inside the `try` and is handed to `catchBlock`. -/
def tryFetchPart (rc : RequestConfigE) (outcome : TransportOutcome)
    (respICs : List (ApicoResponseE → Except JsThrown ApicoResponseE))
    (errICs : List (JsThrown → Except JsThrown JsThrown)) :
    Except JsThrown ApicoResponseE :=
  match outcome with
  | .rejected e => .error e
  | .resolved r =>
    match runICs respICs (createApicoResponse r rc) with
    | .error e => .error e
    | .ok resp2 =>
      if r.ok then .ok resp2
      else
        match runICs errICs
          (createApicoError
            ("Request failed with status code " ++ toString r.status)
            rc (some resp2) (some r.status)) with
        | .ok e1 => .error e1
        | .error e2 => .error e2

/-- `request` from `src/core.ts`, with the transport call abstracted by
`outcome`.  The pre-request interceptors run outside the `try`/`catch`, so a
value they throw propagates raw.  Body/header finalization happens before
the transport call and its header mutation is visible to the `catch` block. -/
def request (beforeICs : List (RequestConfigE → Except JsThrown RequestConfigE))
    (respICs : List (ApicoResponseE → Except JsThrown ApicoResponseE))
    (errICs : List (JsThrown → Except JsThrown JsThrown))
    (defaults config : RequestConfigE) (outcome : TransportOutcome) :
    Except JsThrown ApicoResponseE :=
  match runICs beforeICs (buildRequestConfig config defaults) with
  | .error e => .error e
  | .ok rc =>
    let rc2 := (finalizeBodyHeaders rc).2
    match tryFetchPart rc2 outcome respICs errICs with
    | .ok resp => .ok resp
    | .error thrown => catchBlock rc2 thrown errICs

/-- `RequestResult` from `src/types.ts`, as a pair of optional components. -/
structure RequestResultE where
  response : Option ApicoResponseE
  error : Option JsThrown
  deriving DecidableEq, Repr

/-- `requestSafe` from `src/core.ts`: catch everything `request` throws and
return a `{response, error}` pair instead. -/
def requestSafe
    (beforeICs : List (RequestConfigE → Except JsThrown RequestConfigE))
    (respICs : List (ApicoResponseE → Except JsThrown ApicoResponseE))
    (errICs : List (JsThrown → Except JsThrown JsThrown))
    (defaults config : RequestConfigE) (outcome : TransportOutcome) :
    RequestResultE :=
  match request beforeICs respICs errICs defaults config outcome with
  | .ok r => { response := some r, error := none }
  | .error e => { response := none, error := some e }

/-- The `Accept` header seeded by `createApicoInstance`. -/
def acceptDefault : List (String × String) :=
  [("Accept", "application/json, text/plain, */*")]

/-- The `defaults` object built by `createApicoInstance` (`src/core.ts`
lines 116-122): seed headers and method, shallow-spread the caller's
`defaultConfig` over them. -/
def instanceDefaults (defaultConfig : RequestConfigE) : RequestConfigE :=
  { defaultConfig with
    headers := some (defaultConfig.headers.getD acceptDefault)
    method := some (defaultConfig.method.getD "GET") }

/-! ### Helper lemmas -/

theorem catchBlock_ne_ok (rc : RequestConfigE) (e : JsThrown)
    (errICs : List (JsThrown → Except JsThrown JsThrown))
    (resp : ApicoResponseE) : catchBlock rc e errICs ≠ .ok resp := by
  unfold catchBlock
  split
  · cases runICs errICs (createApicoError "Request aborted" rc none none) <;> simp
  · split
    · simp
    · cases runICs errICs
        (createApicoError (jsMessageOrDefault e) rc none none) <;> simp

/-! ### C4 -/

/-- C4: `requestSafe` never throws: it returns `{response, error: null}` with
the response `request` produced on success and `{response: null, error}`
carrying the thrown value on failure (also when the failure came from an
error interceptor, which in the model is any `.error` result of `request`);
exactly one component of the pair is present. -/
theorem C4_requestSafe_result_pair
    (beforeICs : List (RequestConfigE → Except JsThrown RequestConfigE))
    (respICs : List (ApicoResponseE → Except JsThrown ApicoResponseE))
    (errICs : List (JsThrown → Except JsThrown JsThrown))
    (defaults config : RequestConfigE) (outcome : TransportOutcome) :
    ((requestSafe beforeICs respICs errICs defaults config outcome).response.isSome =
      (requestSafe beforeICs respICs errICs defaults config outcome).error.isNone) ∧
    ((∃ r, request beforeICs respICs errICs defaults config outcome = .ok r ∧
        requestSafe beforeICs respICs errICs defaults config outcome =
          { response := some r, error := none }) ∨
      (∃ e, request beforeICs respICs errICs defaults config outcome = .error e ∧
        requestSafe beforeICs respICs errICs defaults config outcome =
          { response := none, error := some e })) := by
  unfold requestSafe
  cases h : request beforeICs respICs errICs defaults config outcome with
  | ok r => exact ⟨rfl, .inl ⟨r, rfl, rfl⟩⟩
  | error e => exact ⟨rfl, .inr ⟨e, rfl, rfl⟩⟩

/-! ### C3 -/

/-- C3: classification of a value thrown inside the request pipeline
(the `catch` block of `request`), for values that are not the
`DOMException`/`AbortError` shape: a value already carrying the
`isApicoError` discriminator is rethrown unchanged — independently of the
registered error interceptors, so they do not run on it a second time —
while any other value is wrapped as a network error with no attached
response, whose message is the underlying failure's message, defaulting to
`"Network Error"` when that message is absent or empty, and that wrapped
error is then processed by the error interceptors; `request` hands a
transport rejection to exactly this classifier. -/
theorem C3_thrown_value_classification (rc : RequestConfigE) (err : JsThrown)
    (errICs : List (JsThrown → Except JsThrown JsThrown))
    (hdom : err.isDOMException = false) :
    (err.isApicoError = true → catchBlock rc err errICs = .error err) ∧
    (err.isApicoError = false →
      catchBlock rc err errICs =
        (match runICs errICs
            (createApicoError (jsMessageOrDefault err) rc none none) with
          | .ok e1 => .error e1
          | .error e2 => .error e2) ∧
      (createApicoError (jsMessageOrDefault err) rc none none).response = none ∧
      (createApicoError (jsMessageOrDefault err) rc none none).isApicoError = true ∧
      (∀ m, err.message = some m → m ≠ "" → jsMessageOrDefault err = m) ∧
      (err.message = none → jsMessageOrDefault err = "Network Error") ∧
      (err.message = some "" → jsMessageOrDefault err = "Network Error")) ∧
    (∀ defaults config,
      request [] [] errICs defaults config (.rejected err) =
        catchBlock ((finalizeBodyHeaders (buildRequestConfig config defaults)).2)
          err errICs) := by
  refine ⟨fun hap => ?_, fun hap => ?_, fun defaults config => ?_⟩
  · simp [catchBlock, hdom, hap]
  · refine ⟨by simp [catchBlock, hdom, hap], rfl, rfl, ?_, ?_, ?_⟩
    · intro m hm hne
      simp [jsMessageOrDefault, hm, hne]
    · intro hm; simp [jsMessageOrDefault, hm]
    · intro hm; simp [jsMessageOrDefault, hm]
  · simp [request, tryFetchPart, runICs]

/-- C3 witness: a concrete already-recognized client error re-entering the
catch path is passed through unchanged, even with an interceptor list that
would rewrite it. -/
theorem C3_witness :
    catchBlock emptyConfig
      (createApicoError "already wrapped" emptyConfig none none)
      [fun _ => .ok (createApicoError "rewritten" emptyConfig none none)] =
      .error (createApicoError "already wrapped" emptyConfig none none) :=
  (C3_thrown_value_classification emptyConfig
    (createApicoError "already wrapped" emptyConfig none none)
    [fun _ => .ok (createApicoError "rewritten" emptyConfig none none)]
    rfl).1 rfl

/-! ### C1 -/

theorem substrB_timeout_message (s : String) :
    substrB "timeout" ("Request timeout of " ++ s) = true := by
  have h : ("Request timeout of " ++ s).data =
      'R' :: 'e' :: 'q' :: 'u' :: 'e' :: 's' :: 't' :: ' ' :: 't' :: 'i' ::
        'm' :: 'e' :: 'o' :: 'u' :: 't' :: (' ' :: 'o' :: 'f' :: ' ' :: s.data) := by
    rw [String.data_append]; rfl
  simp only [substrB, h]
  simp [containsSubL, isPrefixL]

theorem timeout_message_ne_network (t : Int) :
    "Request timeout of " ++ toString t ++ "ms exceeded" ≠ "Network Error" := by
  intro h
  have h2 := congrArg String.data h
  rw [String.data_append, String.data_append] at h2
  have h3 : "Request timeout of ".data = 'R' :: "equest timeout of ".data := rfl
  have h4 : "Network Error".data = 'N' :: "etwork Error".data := rfl
  rw [h3, h4] at h2
  simp at h2

theorem timeout_message_ne_empty (t : Int) :
    "Request timeout of " ++ toString t ++ "ms exceeded" ≠ "" := by
  intro h
  have h2 := congrArg String.data h
  rw [String.data_append, String.data_append] at h2
  have h3 : "Request timeout of ".data = 'R' :: "equest timeout of ".data := rfl
  rw [h3] at h2
  simp at h2

/-- C1: when the timeout of a request fires before the transport call
completes — i.e. `createTimeoutController` scheduled the abort with its
descriptive reason and the transport call rejected with exactly that reason —
`request` fails with an error that carries the `isApicoError` discriminator,
has no attached response and no status, and whose message is the timeout
description (it contains the word "timeout" and is not the generic
`"Network Error"` default). -/
theorem C1_timeout_error_classification (defaults config : RequestConfigE)
    (t : Int) (ht : 0 < t) (hc : config.timeout = some t) :
    createTimeoutController config.timeout = some (timeoutAbortReason t) ∧
    request [] [] [] defaults config (.rejected (timeoutAbortReason t)) =
      .error (createApicoError
        ("Request timeout of " ++ toString t ++ "ms exceeded")
        ((finalizeBodyHeaders (buildRequestConfig config defaults)).2)
        none none) ∧
    (createApicoError ("Request timeout of " ++ toString t ++ "ms exceeded")
        ((finalizeBodyHeaders (buildRequestConfig config defaults)).2)
        none none).response = none ∧
    (createApicoError ("Request timeout of " ++ toString t ++ "ms exceeded")
        ((finalizeBodyHeaders (buildRequestConfig config defaults)).2)
        none none).status = none ∧
    (createApicoError ("Request timeout of " ++ toString t ++ "ms exceeded")
        ((finalizeBodyHeaders (buildRequestConfig config defaults)).2)
        none none).isApicoError = true ∧
    substrB "timeout" ("Request timeout of " ++ toString t ++ "ms exceeded") = true ∧
    ("Request timeout of " ++ toString t ++ "ms exceeded") ≠ "Network Error" := by
  refine ⟨?_, ?_, rfl, rfl, rfl, ?_, timeout_message_ne_network t⟩
  · rw [hc]
    simp [createTimeoutController, not_le.mpr ht, le_of_lt,
      Int.not_le.mpr ht]
  · simp [request, tryFetchPart, runICs, catchBlock, timeoutAbortReason,
      jsMessageOrDefault, timeout_message_ne_empty t]
  · rw [String.append_assoc]
    exact substrB_timeout_message (toString t ++ "ms exceeded")

/-- C1 witness: a concrete 50 ms timeout firing produces the timeout error. -/
theorem C1_witness :
    request [] [] [] emptyConfig { emptyConfig with timeout := some 50 }
      (.rejected (timeoutAbortReason 50)) =
      .error (createApicoError "Request timeout of 50ms exceeded"
        { emptyConfig with headers := some [], timeout := some 50 } none none) := by
  have h := (C1_timeout_error_classification emptyConfig
    { emptyConfig with timeout := some 50 } 50 (by decide) rfl).2.1
  rw [h]
  decide

/-! ### C5 -/

/-- C5: a failure anywhere in the body-decode chain of `createApicoResponse`
yields a normalized response whose `data` is `null`; and for an `ok`
transport response the request pipeline returns that normalized response —
it never fails because of the body decode (quantified over every transport
response, in particular those whose every decode operation throws). -/
theorem C5_decode_failure_null_data (r : TransportResponse)
    (rc : RequestConfigE)
    (h : decodeAttempt (effectiveResponseType rc) r = .error ()) :
    (createApicoResponse r rc).data = JsData.null ∧
    (∀ defaults config, r.ok = true →
      request [] [] [] defaults config (.resolved r) =
        .ok (createApicoResponse r
          ((finalizeBodyHeaders (buildRequestConfig config defaults)).2))) := by
  constructor
  · simp [createApicoResponse, h]
  · intro defaults config hok
    simp [request, tryFetchPart, runICs, hok]

/-- C5 witness: a transport response whose every decode operation throws
still yields a successful request whose response data is `null`. -/
theorem C5_witness :
    (createApicoResponse
      { ok := true, status := 200, statusText := "OK", contentType := none,
        jsonBody := .error (), textBody := .error (), blobBody := .error (),
        bufBody := .error (), formBody := .error () } emptyConfig).data =
      JsData.null :=
  (C5_decode_failure_null_data
    { ok := true, status := 200, statusText := "OK", contentType := none,
      jsonBody := .error (), textBody := .error (), blobBody := .error (),
      bufBody := .error (), formBody := .error () } emptyConfig (by decide)).1

/-! ### C9 -/

/-- A well-typed error interceptor in the sense of `ErrorInterceptor` from
`src/types.ts`: whenever it returns (rather than throws), it returns a value
of type `ApicoError`, whose `isApicoError` field is the literal `true`; and
it does return for every input. -/
def WellTypedErrIC (f : JsThrown → Except JsThrown JsThrown) : Prop :=
  ∀ e, ∃ e', f e = .ok e' ∧ e'.isApicoError = true

theorem runICs_wellTyped
    (errICs : List (JsThrown → Except JsThrown JsThrown))
    (h : ∀ f ∈ errICs, WellTypedErrIC f) (e : JsThrown)
    (he : e.isApicoError = true) :
    ∃ e', runICs errICs e = .ok e' ∧ e'.isApicoError = true := by
  induction errICs generalizing e with
  | nil => exact ⟨e, rfl, he⟩
  | cons f fs ih =>
    obtain ⟨e1, hf, hm⟩ := h f (by simp) e
    obtain ⟨e2, hrun, hm2⟩ := ih (fun g hg => h g (by simp [hg])) e1 hm
    exact ⟨e2, by simp [runICs, hf, hrun], hm2⟩

theorem catchBlock_marked (rc : RequestConfigE) (e : JsThrown)
    (errICs : List (JsThrown → Except JsThrown JsThrown))
    (h : ∀ f ∈ errICs, WellTypedErrIC f) (e' : JsThrown)
    (hres : catchBlock rc e errICs = .error e') :
    e'.isApicoError = true := by
  unfold catchBlock at hres
  split at hres
  · obtain ⟨e1, hrun, hm⟩ := runICs_wellTyped errICs h
      (createApicoError "Request aborted" rc none none) rfl
    rw [hrun] at hres
    cases hres
    exact hm
  · split at hres
    · cases hres
      assumption
    · obtain ⟨e1, hrun, hm⟩ := runICs_wellTyped errICs h
        (createApicoError (jsMessageOrDefault e) rc none none) rfl
      rw [hrun] at hres
      cases hres
      exact hm

/-- C9: every error crossing the client boundary on the pipeline's failure
paths — thrown from `request` or returned in the `error` field of a
`requestSafe` result — carries the `isApicoError` discriminator set to
`true`, for every transport outcome (HTTP-status failure, timeout/abort
rejection, network rejection, and also failures thrown by response
interceptors), provided the pre-request interceptors succeeded and the
registered error interceptors are well typed (each returns an `ApicoError`,
whose discriminator is the literal `true`, for every input). -/
theorem C9_error_discriminator_invariant
    (beforeICs : List (RequestConfigE → Except JsThrown RequestConfigE))
    (respICs : List (ApicoResponseE → Except JsThrown ApicoResponseE))
    (errICs : List (JsThrown → Except JsThrown JsThrown))
    (defaults config : RequestConfigE) (outcome : TransportOutcome)
    (hwt : ∀ f ∈ errICs, WellTypedErrIC f)
    (hb : ∃ rc, runICs beforeICs (buildRequestConfig config defaults) = .ok rc) :
    (∀ e, request beforeICs respICs errICs defaults config outcome = .error e →
      e.isApicoError = true) ∧
    (∀ e, (requestSafe beforeICs respICs errICs defaults config outcome).error =
        some e → e.isApicoError = true) := by
  obtain ⟨rc, hrc⟩ := hb
  have hchar : request beforeICs respICs errICs defaults config outcome =
      (match tryFetchPart (finalizeBodyHeaders rc).2 outcome respICs errICs with
        | .ok resp => .ok resp
        | .error thrown => catchBlock (finalizeBodyHeaders rc).2 thrown errICs) := by
    unfold request
    rw [hrc]
  have hreq : ∀ e,
      request beforeICs respICs errICs defaults config outcome = .error e →
      e.isApicoError = true := by
    intro e he
    rw [hchar] at he
    revert he
    cases htry : tryFetchPart (finalizeBodyHeaders rc).2 outcome respICs errICs with
    | ok resp => intro he; cases he
    | error thrown =>
      intro he
      exact catchBlock_marked (finalizeBodyHeaders rc).2 thrown errICs hwt e he
  refine ⟨hreq, fun e he => ?_⟩
  unfold requestSafe at he
  revert he
  cases hr : request beforeICs respICs errICs defaults config outcome with
  | ok resp => intro he; cases he
  | error e0 =>
    intro he
    simp only [Option.some.injEq] at he
    rw [← he]
    exact hreq e0 hr

/-- A plain (unmarked) thrown `Error` with message "boom", simulating a
network failure of the transport. -/
def plainBoomError : JsThrown :=
  { name := "Error", message := some "boom", isDOMException := false,
    isApicoError := false, config := none, response := none, status := none }

/-- C9 witness: a concrete transport rejection with an unmarked plain error
crosses the boundary carrying the discriminator. -/
theorem C9_witness :
    (createApicoError "boom" { emptyConfig with headers := some [] }
      none none).isApicoError = true :=
  (C9_error_discriminator_invariant [] [] [] emptyConfig emptyConfig
    (.rejected plainBoomError)
    (by intro f hf; cases hf) ⟨buildRequestConfig emptyConfig emptyConfig, rfl⟩).1
    (createApicoError "boom" { emptyConfig with headers := some [] } none none)
    (by decide)

/-! ### C2 -/

theorem request_char
    (beforeICs : List (RequestConfigE → Except JsThrown RequestConfigE))
    (respICs : List (ApicoResponseE → Except JsThrown ApicoResponseE))
    (errICs : List (JsThrown → Except JsThrown JsThrown))
    (defaults config : RequestConfigE) (outcome : TransportOutcome)
    (rc : RequestConfigE)
    (hrc : runICs beforeICs (buildRequestConfig config defaults) = .ok rc) :
    request beforeICs respICs errICs defaults config outcome =
      (match tryFetchPart (finalizeBodyHeaders rc).2 outcome respICs errICs with
        | .ok resp => .ok resp
        | .error thrown => catchBlock (finalizeBodyHeaders rc).2 thrown errICs) := by
  unfold request
  rw [hrc]

theorem tryFetchPart_ok_imp (rc2 : RequestConfigE) (r : TransportResponse)
    (respICs : List (ApicoResponseE → Except JsThrown ApicoResponseE))
    (errICs : List (JsThrown → Except JsThrown JsThrown))
    (resp0 : ApicoResponseE)
    (h : tryFetchPart rc2 (.resolved r) respICs errICs = .ok resp0) :
    r.ok = true := by
  unfold tryFetchPart at h
  dsimp only at h
  cases hresp : runICs respICs (createApicoResponse r rc2) with
  | error e =>
    rw [hresp] at h
    cases h
  | ok resp2 =>
    rw [hresp] at h
    cases hok : r.ok with
    | true => rfl
    | false =>
      rw [hok] at h
      simp only [Bool.false_eq_true, if_false] at h
      cases herr : runICs errICs
          (createApicoError ("Request failed with status code " ++ toString r.status)
            rc2 (some resp2) (some r.status)) with
      | ok e1 =>
        rw [herr] at h
        cases h
      | error e2 =>
        rw [herr] at h
        cases h

/-- A transport response with status 0 and `ok:false` (the shape fetch gives
an opaque-filtered response), every decode operation throwing. -/
def transportStatus0 : TransportResponse :=
  { ok := false, status := 0, statusText := "", contentType := none,
    jsonBody := .error (), textBody := .error (), blobBody := .error (),
    bufBody := .error (), formBody := .error () }

/-- A response interceptor that annotates the response by replacing its
status with 7. -/
def respICStatus7 : ApicoResponseE → Except JsThrown ApicoResponseE :=
  fun resp => .ok { resp with status := 7 }

/-- The status attached to the error a request failed with, if it failed. -/
def errStatusOf : Except JsThrown ApicoResponseE → Option Nat
  | .error e => e.status
  | .ok _ => none

/-- C2 counterexample: for the transport response with `ok:false` and status
0 and a response interceptor that changes the response status to 7, the error
the request fails with has `status = some 7`, not the transport status 0 —
because `createApicoError` computes `status || response?.status` and 0 is
falsy, `error.status` does not equal the transport status. -/
theorem C2_counterexample :
    transportStatus0.ok = false ∧ transportStatus0.status = 0 ∧
    errStatusOf (request [] [respICStatus7] [] emptyConfig emptyConfig
      (.resolved transportStatus0)) = some 7 := by
  decide

/-- C2 (amended): for a transport response with `ok:false`, when the
response interceptors succeed, `request` builds the HTTP-status error from
the post-interceptor response (`error.response` is that response, and
`error.status` equals the transport status whenever the transport status is
nonzero; a zero status falls back to the post-interceptor response's
status), runs the error interceptors sequentially in registration order on
it, and fails with the (possibly interceptor-modified) error; and transport
`ok` — equivalently 2xx-class status under the fetch contract that `ok`
means status in [200, 299] — is the sole condition under which `request`
returns a response. -/
theorem C2_amended_http_error_path (defaults config : RequestConfigE)
    (r : TransportResponse)
    (respICs : List (ApicoResponseE → Except JsThrown ApicoResponseE))
    (errICs : List (JsThrown → Except JsThrown JsThrown))
    (resp2 : ApicoResponseE) (e1 : JsThrown)
    (hok : r.ok = false)
    (hresp : runICs respICs (createApicoResponse r
      ((finalizeBodyHeaders (buildRequestConfig config defaults)).2)) = .ok resp2)
    (herr : runICs errICs (createApicoError
      ("Request failed with status code " ++ toString r.status)
      ((finalizeBodyHeaders (buildRequestConfig config defaults)).2)
      (some resp2) (some r.status)) = .ok e1)
    (hmark : e1.isApicoError = true) (hdom : e1.isDOMException = false) :
    request [] respICs errICs defaults config (.resolved r) = .error e1 ∧
    (createApicoError ("Request failed with status code " ++ toString r.status)
      ((finalizeBodyHeaders (buildRequestConfig config defaults)).2)
      (some resp2) (some r.status)).response = some resp2 ∧
    (r.status ≠ 0 →
      (createApicoError ("Request failed with status code " ++ toString r.status)
        ((finalizeBodyHeaders (buildRequestConfig config defaults)).2)
        (some resp2) (some r.status)).status = some r.status) ∧
    (∀ (beforeICs : List (RequestConfigE → Except JsThrown RequestConfigE))
        (r' : TransportResponse) (resp' : ApicoResponseE),
      request beforeICs respICs errICs defaults config (.resolved r') = .ok resp' →
      r'.ok = true) ∧
    (∀ (beforeICs : List (RequestConfigE → Except JsThrown RequestConfigE))
        (r' : TransportResponse) (resp' : ApicoResponseE),
      r'.ok = decide (200 ≤ r'.status ∧ r'.status ≤ 299) →
      request beforeICs respICs errICs defaults config (.resolved r') = .ok resp' →
      200 ≤ r'.status ∧ r'.status ≤ 299) := by
  have hsole : ∀ (beforeICs : List (RequestConfigE → Except JsThrown RequestConfigE))
      (r' : TransportResponse) (resp' : ApicoResponseE),
      request beforeICs respICs errICs defaults config (.resolved r') = .ok resp' →
      r'.ok = true := by
    intro beforeICs r' resp' hsucc
    cases hrc : runICs beforeICs (buildRequestConfig config defaults) with
    | error e =>
      unfold request at hsucc
      rw [hrc] at hsucc
      cases hsucc
    | ok rc =>
      rw [request_char beforeICs respICs errICs defaults config
        (.resolved r') rc hrc] at hsucc
      revert hsucc
      cases htry : tryFetchPart (finalizeBodyHeaders rc).2 (.resolved r')
          respICs errICs with
      | error thrown =>
        intro hsucc
        exact absurd hsucc (catchBlock_ne_ok _ _ _ _)
      | ok resp0 =>
        intro hsucc
        exact tryFetchPart_ok_imp (finalizeBodyHeaders rc).2 r' respICs errICs
          resp0 htry
  refine ⟨?_, rfl, ?_, hsole, ?_⟩
  · simp [request, runICs, tryFetchPart, hresp, hok, herr, catchBlock,
      hdom, hmark]
  · intro hnz
    simp [createApicoError, hnz]
  · intro beforeICs r' resp' hcontract hsucc
    have := hsole beforeICs r' resp' hsucc
    rw [hcontract] at this
    exact of_decide_eq_true this

/-- A transport 404 response whose JSON body decodes to an error object. -/
def transport404 : TransportResponse :=
  { ok := false, status := 404, statusText := "Not Found",
    contentType := some "application/json", jsonBody := .ok (.obj 3),
    textBody := .error (), blobBody := .error (), bufBody := .error (),
    formBody := .error () }

/-- C2 witness: a concrete `ok:false, status:404` transport response makes
the request fail with an error whose status is 404. -/
theorem C2_witness :
    errStatusOf (request [] [] [] emptyConfig emptyConfig
      (.resolved transport404)) = some 404 := by
  have h := (C2_amended_http_error_path emptyConfig emptyConfig transport404
    [] []
    (createApicoResponse transport404
      ((finalizeBodyHeaders (buildRequestConfig emptyConfig emptyConfig)).2))
    (createApicoError
      ("Request failed with status code " ++ toString transport404.status)
      ((finalizeBodyHeaders (buildRequestConfig emptyConfig emptyConfig)).2)
      (some (createApicoResponse transport404
        ((finalizeBodyHeaders (buildRequestConfig emptyConfig emptyConfig)).2)))
      (some transport404.status))
    rfl rfl rfl rfl rfl).1
  rw [h]
  decide

/-! ### C8 -/

/-- A request config whose `Content-Type` header is set to the empty
string. -/
def configEmptyCT : RequestConfigE :=
  { emptyConfig with
    method := some "POST", data := some (.obj 0),
    headers := some [("Content-Type", "")] }

/-- C8 counterexample: the `Content-Type` key is already set (to the empty
string, which is falsy in JavaScript), yet the inferred header is attached,
overwriting the existing value — the check is on value falsiness, not key
presence. -/
theorem C8_counterexample :
    headersGet [("Content-Type", "")] "Content-Type" = some "" ∧
    (finalizeBodyHeaders configEmptyCT).2.headers =
      some [("Content-Type", "application/json")] := by
  decide

/-- C8 (amended): a body is serialized and an inferred content-type header
attached only when the upper-cased method is POST, PUT or PATCH and a body
payload is present (`data !== undefined`); the inferred header is attached
only if both the `Content-Type` and the `content-type` keys (case-sensitive)
are absent or hold the falsy empty string, and its value follows
`getContentTypeHeader`: `undefined` for null or multipart/form-encoded data
(so no header is attached), `application/octet-stream` for binary payloads,
`application/json` for any other object-shaped data, `text/plain`
otherwise. -/
theorem C8_amended_body_header_finalization :
    (∀ rc, isBodyMethod (methodUpper rc.method) = false →
      finalizeBodyHeaders rc = (none, rc)) ∧
    (∀ rc, rc.data = none → finalizeBodyHeaders rc = (none, rc)) ∧
    (∀ rc d, rc.data = some d → isBodyMethod (methodUpper rc.method) = true →
      (finalizeBodyHeaders rc).1 = prepareRequestBody d ∧
      ((headerFalsy rc.headers "Content-Type" &&
          headerFalsy rc.headers "content-type") = false →
        (finalizeBodyHeaders rc).2 = rc) ∧
      (getContentTypeHeader d = none → (finalizeBodyHeaders rc).2 = rc) ∧
      (∀ ct, (headerFalsy rc.headers "Content-Type" &&
          headerFalsy rc.headers "content-type") = true →
        getContentTypeHeader d = some ct →
        (finalizeBodyHeaders rc).2 = { rc with
          headers := some (setHeader (rc.headers.getD []) "Content-Type" ct) })) ∧
    (getContentTypeHeader .null = none) ∧
    (∀ g, getContentTypeHeader (.formData g) = none ∧
      getContentTypeHeader (.urlParams g) = none ∧
      getContentTypeHeader (.blob g) = some "application/octet-stream" ∧
      getContentTypeHeader (.arrayBuffer g) = some "application/octet-stream" ∧
      getContentTypeHeader (.obj g) = some "application/json") ∧
    (∀ s, getContentTypeHeader (.str s) = some "text/plain") ∧
    (∀ n, getContentTypeHeader (.num n) = some "text/plain") ∧
    (∀ b, getContentTypeHeader (.boolean b) = some "text/plain") := by
  refine ⟨?_, ?_, ?_, rfl, fun g => ⟨rfl, rfl, rfl, rfl, rfl⟩,
    fun s => rfl, fun n => rfl, fun b => rfl⟩
  · intro rc hm
    unfold finalizeBodyHeaders
    cases rc.data with
    | none => rfl
    | some d => simp [hm]
  · intro rc hd
    unfold finalizeBodyHeaders
    rw [hd]
  · intro rc d hd hm
    unfold finalizeBodyHeaders
    rw [hd]
    simp only [hm, if_true]
    refine ⟨?_, ?_, ?_, ?_⟩
    · cases hf : (headerFalsy rc.headers "Content-Type" &&
          headerFalsy rc.headers "content-type") with
      | true =>
        simp only [hf, if_true]
        cases getContentTypeHeader d <;> rfl
      | false => simp [hf]
    · intro hf
      simp [hf]
    · intro hct
      cases hf : (headerFalsy rc.headers "Content-Type" &&
          headerFalsy rc.headers "content-type") with
      | true => simp [hf, hct]
      | false => simp [hf]
    · intro ct hf hct
      simp [hf, hct]

/-- C8 witness: a POST with a plain object body and no pre-set
content-type headers gets the body serialized and
`Content-Type: application/json` attached. -/
theorem C8_witness :
    (finalizeBodyHeaders { emptyConfig with
      method := some "POST", data := some (.obj 1) }).2 =
      { emptyConfig with
        method := some "POST", data := some (.obj 1),
        headers := some [("Content-Type", "application/json")] } := by
  have h := ((C8_amended_body_header_finalization.2.2.1
    { emptyConfig with method := some "POST", data := some (.obj 1) }
    (.obj 1) rfl (by decide)).2.2.2 "application/json" (by decide) rfl)
  rw [h]
  decide

/-! ### C10 -/

theorem headersGet_merge (d c : List (String × String)) (k : String) :
    headersGet (mergeHeaders d c) k =
      (match headersGet c k with
        | some v => some v
        | none => headersGet d k) := by
  induction d with
  | nil =>
    cases h : headersGet c k with
    | none => show headersGet c k = _; rw [h]; rfl
    | some v => show headersGet c k = _; rw [h]
  | cons p d' ih =>
    cases hd : headersGet c p.1 with
    | none =>
      have hme : mergeHeaders (p :: d') c = p :: mergeHeaders d' c := by
        show (if headersGet c p.1 == none then p :: mergeHeaders d' c
          else mergeHeaders d' c) = p :: mergeHeaders d' c
        rw [hd]
        rfl
      rw [hme]
      by_cases hpk : p.1 = k
      · subst hpk
        have l1 : headersGet (p :: mergeHeaders d' c) p.1 = some p.2 := by
          simp [headersGet]
        have l2 : headersGet (p :: d') p.1 = some p.2 := by
          simp [headersGet]
        rw [l1, hd, l2]
      · have l1 : headersGet (p :: mergeHeaders d' c) k =
            headersGet (mergeHeaders d' c) k := by
          simp [headersGet, hpk]
        have l2 : headersGet (p :: d') k = headersGet d' k := by
          simp [headersGet, hpk]
        rw [l1, ih, l2]
    | some v =>
      have hme : mergeHeaders (p :: d') c = mergeHeaders d' c := by
        show (if headersGet c p.1 == none then p :: mergeHeaders d' c
          else mergeHeaders d' c) = mergeHeaders d' c
        rw [hd]
        rfl
      rw [hme, ih]
      cases hck : headersGet c k with
      | some w => rfl
      | none =>
        have hpk : p.1 ≠ k := by
          intro h
          rw [h, hck] at hd
          cases hd
        have l2 : headersGet (p :: d') k = headersGet d' k := by
          simp [headersGet, hpk]
        rw [l2]

/-- C10: `createApicoInstance` seeds its defaults with the `Accept` header
and method GET, shallow-spread under the caller's `defaultConfig`: a
`defaultConfig` providing its own headers object replaces the seeded headers
entirely (the `Accept` default is dropped from every request that does not
re-add it), while a `defaultConfig` without headers keeps the seeded
`Accept` on every request whose own config does not override it. -/
theorem C10_defaults_seeding_and_merge :
    (∀ d, (instanceDefaults d).method = some (d.method.getD "GET")) ∧
    (∀ d, d.headers = none → (instanceDefaults d).headers = some acceptDefault) ∧
    (∀ d h, d.headers = some h → (instanceDefaults d).headers = some h) ∧
    (∀ d h config, d.headers = some h → headersGet h "Accept" = none →
      headersGet (config.headers.getD []) "Accept" = none →
      headersGet ((buildRequestConfig config (instanceDefaults d)).headers.getD [])
        "Accept" = none) ∧
    (∀ d config, d.headers = none →
      headersGet (config.headers.getD []) "Accept" = none →
      headersGet ((buildRequestConfig config (instanceDefaults d)).headers.getD [])
        "Accept" = some "application/json, text/plain, */*") := by
  refine ⟨fun d => rfl, fun d hd => by simp [instanceDefaults, hd],
    fun d h hd => by simp [instanceDefaults, hd], ?_, ?_⟩
  · intro d h config hd hacc hconf
    have hh : (instanceDefaults d).headers = some h := by
      simp [instanceDefaults, hd]
    simp [buildRequestConfig, hh, headersGet_merge, hconf, hacc]
  · intro d config hd hconf
    have hh : (instanceDefaults d).headers = some acceptDefault := by
      simp [instanceDefaults, hd]
    simp [buildRequestConfig, hh, headersGet_merge, hconf, acceptDefault,
      headersGet]

/-- C10 witness: an instance created with `{}` serves the seeded `Accept`
default on a request with no headers of its own. -/
theorem C10_witness :
    headersGet
      ((buildRequestConfig emptyConfig (instanceDefaults emptyConfig)).headers.getD [])
      "Accept" = some "application/json, text/plain, */*" :=
  C10_defaults_seeding_and_merge.2.2.2.2 emptyConfig emptyConfig rfl rfl

/-! ### C7 -/

theorem pair_ne_empty (k v : String) : k ++ "=" ++ v ≠ "" := by
  intro h
  have h2 := congrArg String.length h
  rw [String.length_append, String.length_append] at h2
  have h3 : ("=" : String).length = 1 := rfl
  have h4 : ("" : String).length = 0 := rfl
  rw [h3, h4] at h2
  omega

theorem joinAmp_ne_empty (x : String) (xs : List String) (hx : x ≠ "") :
    joinAmp (x :: xs) ≠ "" := by
  cases xs with
  | nil => simpa [joinAmp] using hx
  | cons y ys =>
    show x ++ "&" ++ joinAmp (y :: ys) ≠ ""
    intro h
    have h2 := congrArg String.length h
    rw [String.length_append, String.length_append] at h2
    have h3 : ("&" : String).length = 1 := rfl
    have h4 : ("" : String).length = 0 := rfl
    rw [h3, h4] at h2
    omega

theorem definedPairs_shape (ps : List (String × Option String)) (x : String)
    (hx : x ∈ definedPairs ps) : ∃ k v, (k, some v) ∈ ps ∧ x = k ++ "=" ++ v := by
  simp only [definedPairs, List.mem_filterMap] at hx
  obtain ⟨⟨k, ov⟩, hmem, hmap⟩ := hx
  cases ov with
  | none => cases hmap
  | some v =>
    simp only [Option.map_some] at hmap
    cases hmap
    exact ⟨k, v, hmem, rfl⟩

/-- C7: `buildURL` leaves the URL unchanged when the parameter mapping is
absent or contains no defined entry; otherwise the output is the original
URL, followed by `&` when the URL already contains `?` and by `?` otherwise,
followed by the `&`-join of exactly the defined `key=value` pairs in mapping
order; every defined entry of the mapping contributes its pair, and
undefined-valued entries contribute nothing. -/
theorem C7_buildURL_query_append :
    (∀ url, buildURL url none = url) ∧
    (∀ url ps, definedPairs ps = [] → buildURL url (some ps) = url) ∧
    (∀ url ps, definedPairs ps ≠ [] →
      buildURL url (some ps) =
        url ++ (if containsChar url '?' then "&" else "?") ++
          joinAmp (definedPairs ps)) ∧
    (∀ ps k v, (k, some v) ∈ ps → (k ++ "=" ++ v) ∈ definedPairs ps) ∧
    (∀ ps k, definedPairs ((k, (none : Option String)) :: ps) = definedPairs ps) := by
  refine ⟨fun url => rfl, ?_, ?_, ?_, ?_⟩
  · intro url ps h
    cases ps with
    | nil => rfl
    | cons p ps' =>
      show buildURL url (some (p :: ps')) = url
      unfold buildURL
      simp only [List.isEmpty_cons, if_false, Bool.false_eq_true]
      have hq : buildQueryString (p :: ps') = "" := by
        unfold buildQueryString
        rw [h]
        rfl
      simp [hq]
  · intro url ps h
    obtain ⟨x, xs, heq⟩ : ∃ x xs, definedPairs ps = x :: xs := by
      cases hdp : definedPairs ps with
      | nil => exact absurd hdp h
      | cons x xs => exact ⟨x, xs, rfl⟩
    have hx : x ≠ "" := by
      obtain ⟨k, v, _, hkv⟩ := definedPairs_shape ps x (by rw [heq]; simp)
      rw [hkv]
      exact pair_ne_empty k v
    have hps : ps ≠ [] := by
      intro hnil
      rw [hnil] at heq
      cases heq
    cases ps with
    | nil => exact absurd rfl hps
    | cons p ps' =>
      unfold buildURL
      simp only [List.isEmpty_cons, Bool.false_eq_true, if_false]
      have hq : buildQueryString (p :: ps') = joinAmp (definedPairs (p :: ps')) := rfl
      have hqne : (buildQueryString (p :: ps') == "") = false := by
        rw [hq, heq]
        exact beq_eq_false_iff_ne.mpr (joinAmp_ne_empty x xs hx)
      rw [hqne]
      simp only [Bool.false_eq_true, if_false]
      by_cases hc : containsChar url '?'
      · simp [hc, hq, String.append_assoc]
      · simp [hc, hq, String.append_assoc]
  · intro ps k v h
    simp only [definedPairs, List.mem_filterMap]
    exact ⟨(k, some v), h, rfl⟩
  · intro ps k
    simp [definedPairs]

/-- C7 witness: a mapping with one undefined-valued entry between two defined
ones extends a URL that already has a query string with `&` and drops the
undefined entry. -/
theorem C7_witness :
    buildURL "u?x=1" (some [("a", some "1"), ("b", none), ("c", some "2")]) =
      "u?x=1" ++ "&" ++ "a=1&c=2" := by
  have h := C7_buildURL_query_append.2.2.1 "u?x=1"
    [("a", some "1"), ("b", none), ("c", some "2")] (by decide)
  rw [h]
  decide

/-! ### C6 -/

theorem addLeading_eq (r : String) :
    addLeadingSlash r = "/" ++ stripLeadingSlash r := by
  unfold addLeadingSlash stripLeadingSlash
  by_cases h : r.data.head? = some '/'
  · simp only [h, if_pos]
    apply String.ext
    rw [String.data_append]
    cases hd : r.data with
    | nil =>
      rw [hd] at h
      cases h
    | cons c t =>
      rw [hd] at h
      simp only [List.head?_cons, Option.some.injEq] at h
      subst h
      rfl
  · simp [h]

theorem stripTrailing_split (b : String) :
    b = stripTrailingSlash b ∨ b = stripTrailingSlash b ++ "/" := by
  unfold stripTrailingSlash
  by_cases h : b.data.getLast? = some '/'
  · right
    simp only [h, if_pos]
    apply String.ext
    rw [String.data_append]
    exact (List.dropLast_append_getLast? '/' h).symm
  · left
    simp [h]

theorem stripLeading_split (r : String) :
    r = stripLeadingSlash r ∨ r = "/" ++ stripLeadingSlash r := by
  unfold stripLeadingSlash
  by_cases h : r.data.head? = some '/'
  · right
    apply String.ext
    simp only [h, if_pos]
    rw [String.data_append]
    cases hd : r.data with
    | nil =>
      rw [hd] at h
      cases h
    | cons c t =>
      rw [hd] at h
      simp only [List.head?_cons, Option.some.injEq] at h
      subst h
      rfl
  · left
    simp [h]

theorem stripTrailing_no_slash (b : String)
    (hb : ¬(b.data.getLast? = some '/' ∧ b.data.dropLast.getLast? = some '/')) :
    (stripTrailingSlash b).data.getLast? ≠ some '/' := by
  unfold stripTrailingSlash
  by_cases h : b.data.getLast? = some '/'
  · simp only [h, if_pos]
    intro h2
    exact hb ⟨h, h2⟩
  · simp [h]

theorem stripLeading_no_slash (r : String)
    (hr : ¬(r.data.head? = some '/' ∧ r.data.tail.head? = some '/')) :
    (stripLeadingSlash r).data.head? ≠ some '/' := by
  unfold stripLeadingSlash
  by_cases h : r.data.head? = some '/'
  · simp only [h, if_pos]
    intro h2
    exact hr ⟨h, h2⟩
  · simp [h]

/-- C6 counterexample: a base ending in two slashes has exactly one stripped,
so the stripped base still ends in a slash and the join point carries a
double slash — `combineURLs` does not prevent double-slashing for every base
and relative string. -/
theorem C6_counterexample :
    combineURLs "https://a.com//" "users" = "https://a.com//users" ∧
    (stripTrailingSlash "https://a.com//").data.getLast? = some '/' := by
  decide

/-- C6 (amended): `combineURLs` returns `base` unchanged when `relative` is
empty; the three specification examples hold; and for every base with at
most one trailing slash and relative with at most one leading slash, the
output is the slash-free-ended stripped base, one joining slash, and the
slash-free-started stripped relative — exactly one slash at the join point
and no dropped segment (the stripped parts differ from the inputs by at most
that one slash). -/
theorem C6_amended_combineURLs :
    (∀ b, combineURLs b "" = b) ∧
    combineURLs "https://a.com/" "/users" = "https://a.com/users" ∧
    combineURLs "https://a.com" "users" = "https://a.com/users" ∧
    combineURLs "https://a.com/" "users" = "https://a.com/users" ∧
    (∀ b r, r ≠ "" →
      ¬(b.data.getLast? = some '/' ∧ b.data.dropLast.getLast? = some '/') →
      ¬(r.data.head? = some '/' ∧ r.data.tail.head? = some '/') →
      combineURLs b r = stripTrailingSlash b ++ "/" ++ stripLeadingSlash r ∧
      (stripTrailingSlash b).data.getLast? ≠ some '/' ∧
      (stripLeadingSlash r).data.head? ≠ some '/' ∧
      (b = stripTrailingSlash b ∨ b = stripTrailingSlash b ++ "/") ∧
      (r = stripLeadingSlash r ∨ r = "/" ++ stripLeadingSlash r)) := by
  refine ⟨fun b => by simp [combineURLs], by decide, by decide, by decide, ?_⟩
  intro b r hr hb2 hr2
  refine ⟨?_, stripTrailing_no_slash b hb2, stripLeading_no_slash r hr2,
    stripTrailing_split b, stripLeading_split r⟩
  unfold combineURLs
  rw [if_pos hr, addLeading_eq, String.append_assoc]

/-- C6 witness: the no-double-slash join shape at a concrete base and
relative. -/
theorem C6_witness :
    combineURLs "https://a.com" "users" =
      stripTrailingSlash "https://a.com" ++ "/" ++ stripLeadingSlash "users" :=
  (C6_amended_combineURLs.2.2.2.2 "https://a.com" "users" (by decide)
    (by decide) (by decide)).1

end Apico
